import Mathlib

/-!
# Loop device manager: a shallow embedding of `losetup.go`

The source file holds six operations (`Device.Add`, `Device.Remove`, `GetFree`, `Attach`,
`Device.Attach`, `Device.Detach`).  Each of them opens one or two files, issues `ioctl`
requests through `unix.Syscall`, and releases what it opened with `defer`.

The embedding passes the state of the operating system explicitly.  The operating system and
the two helpers of the package that are not part of `losetup.go` (`device.open()` and
`setInfo`) are the fields of an environment `Env σ` over an arbitrary state type `σ`; every
call made by the source is also appended to a trace of `Event`s, so that the order of opens,
control requests and closes can be stated.  Declarations of the package that `losetup.go`
uses without defining them (control request codes, paths, the size of `Info.FileName`) are
the fields of `Decls`.
-/

namespace Losetup

/-! ## Constants of the Go standard library and of `golang.org/x/sys/unix` (linux/amd64) -/

/-- The value of `os.O_RDONLY`. -/
def O_RDONLY : Int := 0

/-- The value of `os.O_RDWR`. -/
def O_RDWR : Int := 2

/-- The value of `unix.SYS_IOCTL`. -/
def SYS_IOCTL : Nat := 16

/-- The value of `unix.EBUSY`. -/
def EBUSY : Nat := 16

/-- The value of `unix.EEXIST`. -/
def EEXIST : Nat := 17

/-- Conversion to `uintptr` (64 bits wide). -/
def uintptr (n : Nat) : Nat := n % 2 ^ 64

/-- Conversion to `uint64`. -/
def uint64 (n : Nat) : Nat := n % 2 ^ 64

/-! ## Data model -/

/-- The type `Device`: the source reads and writes its fields `Number` (a `uint64`) and
`Flags` (an `int`). -/
structure Device where
  Number : Nat
  Flags : Int
deriving DecidableEq, Repr

/-- The type `Info`, restricted to the two fields the source writes: `FileName`, a byte array
of fixed size, and `Offset`, a `uint64`.  Every other field keeps its zero value. -/
structure Info where
  FileName : List Nat
  Offset : Nat
deriving DecidableEq, Repr

/-- An `error` value produced outside `losetup.go` (by package `os`, by `device.open()` or by
`setInfo`).  The source only tests such a value against `nil` and formats it with `%v`, so it
is identified by the text of its `Error` method. -/
structure ExtError where
  text : String
deriving DecidableEq, Repr

/-- An argument passed to `fmt.Errorf`. -/
inductive Arg where
  | str (s : String)
  | err (e : ExtError)
  | errno (e : Nat)
deriving DecidableEq, Repr

/-- An `error` value returned by the operations of `losetup.go`: either the result of
`fmt.Errorf` (format string and arguments, kept unformatted), or a bare `unix.Errno`. -/
inductive GoError where
  | Errorf (format : String) (args : List Arg)
  | Errno (e : Nat)
deriving DecidableEq, Repr

/-- The format string of an error built by `fmt.Errorf`; a bare `unix.Errno` has none. -/
def GoError.format : GoError → Option String
  | .Errorf f _ => some f
  | .Errno _ => none

/-- The result of opening a file: a descriptor, or the error. -/
inductive OpenResult where
  | ok (fd : Nat)
  | error (err : ExtError)
deriving DecidableEq, Repr

/-- Declarations of the package that `losetup.go` uses and does not define. -/
structure Decls where
  LoopControlPath : String
  CtlAdd : Nat
  CtlRemove : Nat
  CtlGetFree : Nat
  SetFd : Nat
  ClrFd : Nat
  /-- The length of the array `Info.FileName`. -/
  NameSize : Nat
  /-- The method `device.Path()`. -/
  Path : Device → String

/-- The operating system and the helpers of the package called by `losetup.go`, as
transformers of a state `σ`. -/
structure Env (σ : Type) where
  /-- The call `os.OpenFile(name, flag, perm)`. -/
  OpenFile : String → Int → Nat → σ → OpenResult × σ
  /-- The call `f.Close()`; every caller in the source discards its result. -/
  Close : Nat → σ → σ
  /-- The call `unix.Syscall(trap, a1, a2, a3)`, returning `(r1, r2, errno)`. -/
  Syscall : Nat → Nat → Nat → Nat → σ → (Nat × Nat × Nat) × σ
  /-- The helper `device.open()`, which opens the node of the loop device. -/
  deviceOpen : Device → σ → OpenResult × σ
  /-- The helper `setInfo(fd, info)`, which issues the set-info control request; `none`
  stands for a `nil` error. -/
  setInfo : Nat → Info → σ → Option ExtError × σ

/-- One call made by the source, with its result. -/
inductive Event where
  | OpenFile (name : String) (flag : Int) (perm : Nat) (res : OpenResult)
  | deviceOpen (d : Device) (res : OpenResult)
  | Close (fd : Nat)
  | Syscall (trap a1 a2 a3 : Nat) (r1 r2 errno : Nat)
  | setInfo (fd : Nat) (info : Info) (res : Option ExtError)
deriving DecidableEq, Repr

/-- The state of the operating system together with the calls made so far. -/
structure World (σ : Type) where
  st : σ
  trace : List Event

variable {σ : Type}

/-! ## Primitive calls, recorded in the trace -/

/-- Calls `os.OpenFile` and records it. -/
def osOpenFile (e : Env σ) (name : String) (flag : Int) (perm : Nat) (w : World σ) :
    OpenResult × World σ :=
  let r := e.OpenFile name flag perm w.st
  (r.1, ⟨r.2, w.trace ++ [Event.OpenFile name flag perm r.1]⟩)

/-- Calls `device.open()` and records it. -/
def deviceOpen (e : Env σ) (d : Device) (w : World σ) : OpenResult × World σ :=
  let r := e.deviceOpen d w.st
  (r.1, ⟨r.2, w.trace ++ [Event.deviceOpen d r.1]⟩)

/-- Calls `f.Close()` and records it. -/
def fileClose (e : Env σ) (fd : Nat) (w : World σ) : World σ :=
  ⟨e.Close fd w.st, w.trace ++ [Event.Close fd]⟩

/-- Calls `unix.Syscall` and records it. -/
def Syscall (e : Env σ) (trap a1 a2 a3 : Nat) (w : World σ) : (Nat × Nat × Nat) × World σ :=
  let r := e.Syscall trap a1 a2 a3 w.st
  (r.1, ⟨r.2, w.trace ++ [Event.Syscall trap a1 a2 a3 r.1.1 r.1.2.1 r.1.2.2]⟩)

/-- Calls `setInfo` and records it. -/
def setInfo (e : Env σ) (fd : Nat) (info : Info) (w : World σ) : Option ExtError × World σ :=
  let r := e.setInfo fd info w.st
  (r.1, ⟨r.2, w.trace ++ [Event.setInfo fd info r.1]⟩)

/-- The statement `defer f.Close()`: the rest of the function runs, then the file is closed,
whatever the rest returned. -/
def deferClose {α : Type} (e : Env σ) (fd : Nat) (rest : α × World σ) : α × World σ :=
  (rest.1, fileClose e fd rest.2)

/-- The conversion `[]byte(s)`. -/
def bytes (s : String) : List Nat := s.toUTF8.data.toList.map UInt8.toNat

/-- The builtin `copy(dst, src)`: the first `min (len dst) (len src)` elements of `dst` are
overwritten with those of `src`. -/
def copy (dst src : List Nat) : List Nat :=
  let n := min dst.length src.length
  src.take n ++ dst.drop n

/-- The zero value `Info{}`. -/
def Info.zero (c : Decls) : Info := ⟨List.replicate c.NameSize 0, 0⟩

/-! ## The operations of `losetup.go` -/

/-- The method `Device.Add`. -/
def Device.Add (e : Env σ) (c : Decls) (device : Device) (w : World σ) :
    Option GoError × World σ :=
  let o := osOpenFile e c.LoopControlPath O_RDWR 0o660 w
  match o.1 with
  | .error err =>
    (some (.Errorf "could not open %v: %v" [.str c.LoopControlPath, .err err]), o.2)
  | .ok ctrl =>
    deferClose e ctrl (
      let r := Syscall e SYS_IOCTL ctrl c.CtlAdd (uintptr device.Number) o.2
      let errno := r.1.2.2
      if errno = EEXIST then
        (some (.Errorf "device already exist" []), r.2)
      else if errno ≠ 0 then
        (some (.Errorf "could not add device (err: %d): %v" [.errno errno, .errno errno]), r.2)
      else
        (none, r.2))

/-- The method `Device.Remove`. -/
def Device.Remove (e : Env σ) (c : Decls) (device : Device) (w : World σ) :
    Option GoError × World σ :=
  let o := osOpenFile e c.LoopControlPath O_RDWR 0o660 w
  match o.1 with
  | .error err =>
    (some (.Errorf "could not open %v: %v" [.str c.LoopControlPath, .err err]), o.2)
  | .ok ctrl =>
    deferClose e ctrl (
      let r := Syscall e SYS_IOCTL ctrl c.CtlRemove (uintptr device.Number) o.2
      let errno := r.1.2.2
      if errno = EBUSY then
        (some (.Errorf "could not remove, device in use" []), r.2)
      else if errno ≠ 0 then
        (some (.Errorf "could not remove (err: %d): %v" [.errno errno, .errno errno]), r.2)
      else
        (none, r.2))

/-- The function `GetFree`.  The variable `dev` is a `uintptr`, here a natural number, and the
source compares it with `0`. -/
def GetFree (e : Env σ) (c : Decls) (w : World σ) : (Device × Option GoError) × World σ :=
  let o := osOpenFile e c.LoopControlPath O_RDWR 0o660 w
  match o.1 with
  | .error err =>
    ((⟨0, 0⟩, some (.Errorf "could not open %v: %v" [.str c.LoopControlPath, .err err])), o.2)
  | .ok ctrl =>
    deferClose e ctrl (
      let r := Syscall e SYS_IOCTL ctrl c.CtlGetFree 0 o.2
      let dev := r.1.1
      let errno := r.1.2.2
      if dev < 0 then
        ((⟨0, 0⟩,
          some (.Errorf "could not get free device (err: %d): %v" [.errno errno, .errno errno])),
          r.2)
      else
        ((⟨uint64 dev, O_RDWR⟩, none), r.2))

/-- The method `Device.Attach`. -/
def Device.Attach (e : Env σ) (c : Decls) (device : Device) (backingFile : String)
    (offset : Nat) (ro : Bool) (w : World σ) : (Device × Option GoError) × World σ :=
  let flags := if ro then O_RDONLY else O_RDWR
  let o := osOpenFile e backingFile flags 0o660 w
  match o.1 with
  | .error err =>
    ((device, some (.Errorf "could not open backing file: %v" [.err err])), o.2)
  | .ok back =>
    deferClose e back (
      let device : Device := { device with Flags := flags }
      let l := deviceOpen e device o.2
      match l.1 with
      | .error err =>
        ((device, some (.Errorf "could not open loop device: %v" [.err err])), l.2)
      | .ok loopFile =>
        deferClose e loopFile (
          let r := Syscall e SYS_IOCTL loopFile c.SetFd back l.2
          let errno := r.1.2.2
          if errno = 0 then
            let info : Info :=
              { FileName := copy (Info.zero c).FileName (bytes backingFile), Offset := offset }
            let i := setInfo e loopFile info r.2
            match i.1 with
            | some _ =>
              let u := Syscall e SYS_IOCTL loopFile c.ClrFd 0 i.2
              ((device, some (.Errorf "could not set info" [])), u.2)
            | none => ((device, none), i.2)
          else
            ((device, some (.Errno errno)), r.2)))

/-- The function `Attach`. -/
def Attach (e : Env σ) (c : Decls) (backingFile : String) (offset : Nat) (ro : Bool)
    (w : World σ) : (Device × Option GoError) × World σ :=
  let g := GetFree e c w
  match g.1.2 with
  | some err => ((g.1.1, some err), g.2)
  | none => Device.Attach e c g.1.1 backingFile offset ro g.2

/-- The method `Device.Detach`. -/
def Device.Detach (e : Env σ) (c : Decls) (device : Device) (w : World σ) :
    Option GoError × World σ :=
  let o := osOpenFile e (c.Path device) O_RDONLY 0o660 w
  match o.1 with
  | .error _ => (some (.Errorf "could not open loop device" []), o.2)
  | .ok loopFile =>
    deferClose e loopFile (
      let r := Syscall e SYS_IOCTL loopFile c.ClrFd 0 o.2
      let errno := r.1.2.2
      if errno ≠ 0 then
        (some (.Errorf "error clearing loopfile: %v" [.errno errno]), r.2)
      else
        (none, r.2))

/-! ## Reading a trace -/

/-- The descriptors obtained by the successful opens of a trace, in the order of the opens. -/
def opens : List Event → List Nat
  | [] => []
  | Event.OpenFile _ _ _ (.ok fd) :: t => fd :: opens t
  | Event.deviceOpen _ (.ok fd) :: t => fd :: opens t
  | _ :: t => opens t

/-- The descriptors closed by a trace, in the order of the closes. -/
def closes : List Event → List Nat
  | [] => []
  | Event.Close fd :: t => fd :: closes t
  | _ :: t => closes t

/-! ## Sample declarations and environments, used to evaluate the operations -/

/-- The declarations with the values of the Linux loop driver. -/
def sampleDecls : Decls where
  LoopControlPath := "/dev/loop-control"
  CtlAdd := 0x4C80
  CtlRemove := 0x4C81
  CtlGetFree := 0x4C82
  SetFd := 0x4C00
  ClrFd := 0x4C01
  NameSize := 64
  Path := fun d => "/dev/loop" ++ Nat.repr d.Number

/-- An environment without state: every `os.OpenFile` answers `back`, `device.open()` answers
`loop`, a system call answers `ioctl` of its request code, and `setInfo` answers `info`. -/
def sampleEnv (back loop : OpenResult) (ioctl : Nat → Nat × Nat × Nat)
    (info : Option ExtError) : Env Unit where
  OpenFile := fun _ _ _ s => (back, s)
  Close := fun _ s => s
  Syscall := fun _ _ a2 _ s => (ioctl a2, s)
  deviceOpen := fun _ s => (loop, s)
  setInfo := fun _ _ s => (info, s)

/-- A path of 70 bytes, longer than the 64 bytes of `sampleDecls.NameSize`. -/
def longPath : String :=
  "/var/lib/images/backups/2024/customer-data-volume-0001/snapshot-17.img"

/-- The world before any call. -/
def World.init : World Unit := ⟨(), []⟩

/-! ## Theorems -/

/-- C8. Given that the loop-control device opens (descriptor ctrl), Device.Add issues exactly
one system call, the add request on ctrl with argument device.Number, between the open and the
close; it returns nil iff the errno of that request is 0, the error "device already exist" iff
the errno is EEXIST, and for every other non-zero errno the error "could not add device"
carrying that errno. -/
theorem Add_result_mapping (e : Env σ) (c : Decls) (device : Device) (w : World σ)
    (ctrl r1 r2 errno : Nat) (s1 s2 : σ) (hnum : device.Number < 2 ^ 64)
    (hopen : e.OpenFile c.LoopControlPath O_RDWR 0o660 w.st = (.ok ctrl, s1))
    (hsys : e.Syscall SYS_IOCTL ctrl c.CtlAdd device.Number s1 = ((r1, r2, errno), s2)) :
    (Device.Add e c device w).2.trace = w.trace ++
        [Event.OpenFile c.LoopControlPath O_RDWR 0o660 (.ok ctrl),
         Event.Syscall SYS_IOCTL ctrl c.CtlAdd device.Number r1 r2 errno,
         Event.Close ctrl]
      ∧ ((Device.Add e c device w).1 = none ↔ errno = 0)
      ∧ ((Device.Add e c device w).1 = some (.Errorf "device already exist" []) ↔
          errno = EEXIST)
      ∧ (errno ≠ 0 → errno ≠ EEXIST →
          (Device.Add e c device w).1 =
            some (.Errorf "could not add device (err: %d): %v"
              [.errno errno, .errno errno])) := by
  have hu : uintptr device.Number = device.Number := Nat.mod_eq_of_lt hnum
  simp only [Device.Add, osOpenFile, deferClose, fileClose, Syscall, hopen, hu, hsys]
  by_cases h1 : errno = EEXIST
  · subst h1
    simp [EEXIST]
  · by_cases h0 : errno = 0
    · subst h0
      simp [EEXIST]
    · simp [h0, h1]

/-- Witness of C8: device 7, the control device opens as descriptor 3 and the add request
answers EEXIST. -/
theorem Add_result_mapping_witness :
    (7 : Nat) < 2 ^ 64
      ∧ (sampleEnv (.ok 3) (.ok 4) (fun _ => (0, 0, EEXIST)) none).OpenFile
          sampleDecls.LoopControlPath O_RDWR 0o660 World.init.st = (.ok 3, ())
      ∧ (Device.Add (sampleEnv (.ok 3) (.ok 4) (fun _ => (0, 0, EEXIST)) none) sampleDecls
          ⟨7, 0⟩ World.init).2.trace =
          [Event.OpenFile "/dev/loop-control" 2 0o660 (.ok 3),
           Event.Syscall 16 3 0x4C80 7 0 0 17,
           Event.Close 3]
      ∧ (Device.Add (sampleEnv (.ok 3) (.ok 4) (fun _ => (0, 0, EEXIST)) none) sampleDecls
          ⟨7, 0⟩ World.init).1 = some (.Errorf "device already exist" []) :=
  have h := Add_result_mapping (sampleEnv (.ok 3) (.ok 4) (fun _ => (0, 0, EEXIST)) none)
    sampleDecls ⟨7, 0⟩ World.init 3 0 0 EEXIST () () (by decide) rfl rfl
  ⟨by decide, rfl, h.1, h.2.2.1.mpr rfl⟩

/-- C9. Given that the loop-control device opens (descriptor ctrl), Device.Remove issues
exactly one system call, the remove request on ctrl with argument device.Number, between the
open and the close; it returns nil iff the errno of that request is 0, the error "could not
remove, device in use" iff the errno is EBUSY, and for every other non-zero errno the error
"could not remove" carrying that errno. -/
theorem Remove_result_mapping (e : Env σ) (c : Decls) (device : Device) (w : World σ)
    (ctrl r1 r2 errno : Nat) (s1 s2 : σ) (hnum : device.Number < 2 ^ 64)
    (hopen : e.OpenFile c.LoopControlPath O_RDWR 0o660 w.st = (.ok ctrl, s1))
    (hsys : e.Syscall SYS_IOCTL ctrl c.CtlRemove device.Number s1 = ((r1, r2, errno), s2)) :
    (Device.Remove e c device w).2.trace = w.trace ++
        [Event.OpenFile c.LoopControlPath O_RDWR 0o660 (.ok ctrl),
         Event.Syscall SYS_IOCTL ctrl c.CtlRemove device.Number r1 r2 errno,
         Event.Close ctrl]
      ∧ ((Device.Remove e c device w).1 = none ↔ errno = 0)
      ∧ ((Device.Remove e c device w).1 =
            some (.Errorf "could not remove, device in use" []) ↔ errno = EBUSY)
      ∧ (errno ≠ 0 → errno ≠ EBUSY →
          (Device.Remove e c device w).1 =
            some (.Errorf "could not remove (err: %d): %v"
              [.errno errno, .errno errno])) := by
  have hu : uintptr device.Number = device.Number := Nat.mod_eq_of_lt hnum
  simp only [Device.Remove, osOpenFile, deferClose, fileClose, Syscall, hopen, hu, hsys]
  by_cases h1 : errno = EBUSY
  · subst h1
    simp [EBUSY]
  · by_cases h0 : errno = 0
    · subst h0
      simp [EBUSY]
    · simp [h0, h1]

/-- Witness of C9: device 7, the control device opens as descriptor 3 and the remove request
answers errno 19 (ENODEV), neither 0 nor EBUSY. -/
theorem Remove_result_mapping_witness :
    (7 : Nat) < 2 ^ 64
      ∧ (sampleEnv (.ok 3) (.ok 4) (fun _ => (2 ^ 64 - 1, 0, 19)) none).OpenFile
          sampleDecls.LoopControlPath O_RDWR 0o660 World.init.st = (.ok 3, ())
      ∧ (Device.Remove (sampleEnv (.ok 3) (.ok 4) (fun _ => (2 ^ 64 - 1, 0, 19)) none)
          sampleDecls ⟨7, 0⟩ World.init).2.trace =
          [Event.OpenFile "/dev/loop-control" 2 0o660 (.ok 3),
           Event.Syscall 16 3 0x4C81 7 (2 ^ 64 - 1) 0 19,
           Event.Close 3]
      ∧ (Device.Remove (sampleEnv (.ok 3) (.ok 4) (fun _ => (2 ^ 64 - 1, 0, 19)) none)
          sampleDecls ⟨7, 0⟩ World.init).1 =
          some (.Errorf "could not remove (err: %d): %v" [.errno 19, .errno 19]) :=
  have h := Remove_result_mapping (sampleEnv (.ok 3) (.ok 4) (fun _ => (2 ^ 64 - 1, 0, 19)) none)
    sampleDecls ⟨7, 0⟩ World.init 3 (2 ^ 64 - 1) 0 19 () () (by decide) rfl rfl
  ⟨by decide, rfl, h.1, h.2.2.2 (by decide) (by decide)⟩

/-- C5, as the code has it. Given that the device node opens (descriptor loopFile),
Device.Detach issues exactly one system call, the clear-file-descriptor request on loopFile;
it returns nil iff the errno of that request is 0, and for every non-zero errno, EBUSY
included, the one error "error clearing loopfile" carrying that errno. -/
theorem Detach_result_mapping (e : Env σ) (c : Decls) (device : Device) (w : World σ)
    (loopFile r1 r2 errno : Nat) (s1 s2 : σ)
    (hopen : e.OpenFile (c.Path device) O_RDONLY 0o660 w.st = (.ok loopFile, s1))
    (hsys : e.Syscall SYS_IOCTL loopFile c.ClrFd 0 s1 = ((r1, r2, errno), s2)) :
    (Device.Detach e c device w).2.trace = w.trace ++
        [Event.OpenFile (c.Path device) O_RDONLY 0o660 (.ok loopFile),
         Event.Syscall SYS_IOCTL loopFile c.ClrFd 0 r1 r2 errno,
         Event.Close loopFile]
      ∧ ((Device.Detach e c device w).1 = none ↔ errno = 0)
      ∧ (errno ≠ 0 →
          (Device.Detach e c device w).1 =
            some (.Errorf "error clearing loopfile: %v" [.errno errno])) := by
  simp only [Device.Detach, osOpenFile, deferClose, fileClose, Syscall, hopen, hsys]
  by_cases h0 : errno = 0
  · subst h0
    simp
  · simp [h0]

/-- Witness of C5: device 7, the device node opens as descriptor 4 and the clear request
answers EBUSY. -/
theorem Detach_result_mapping_witness :
    (sampleEnv (.ok 4) (.ok 4) (fun _ => (2 ^ 64 - 1, 0, EBUSY)) none).OpenFile
        (sampleDecls.Path ⟨7, 0⟩) O_RDONLY 0o660 World.init.st = (.ok 4, ())
      ∧ (Device.Detach (sampleEnv (.ok 4) (.ok 4) (fun _ => (2 ^ 64 - 1, 0, EBUSY)) none)
          sampleDecls ⟨7, 0⟩ World.init).2.trace =
          [Event.OpenFile (sampleDecls.Path ⟨7, 0⟩) 0 0o660 (.ok 4),
           Event.Syscall 16 4 0x4C01 0 (2 ^ 64 - 1) 0 16,
           Event.Close 4]
      ∧ (Device.Detach (sampleEnv (.ok 4) (.ok 4) (fun _ => (2 ^ 64 - 1, 0, EBUSY)) none)
          sampleDecls ⟨7, 0⟩ World.init).1 =
          some (.Errorf "error clearing loopfile: %v" [.errno 16]) :=
  have h := Detach_result_mapping
    (sampleEnv (.ok 4) (.ok 4) (fun _ => (2 ^ 64 - 1, 0, EBUSY)) none)
    sampleDecls ⟨7, 0⟩ World.init 4 (2 ^ 64 - 1) 0 EBUSY () () rfl rfl
  ⟨rfl, h.1, h.2.2 (by decide)⟩

/-- C5, counterexample. With the device node open, a clear request answering EBUSY and one
answering errno 1 (EPERM) make Device.Detach return errors built from the same format string,
"error clearing loopfile: %v", which differ only in the errno they carry: EBUSY gets no error
of its own. -/
theorem Detach_busy_not_distinguished :
    (Device.Detach (sampleEnv (.ok 4) (.ok 4) (fun _ => (2 ^ 64 - 1, 0, EBUSY)) none)
        sampleDecls ⟨7, 0⟩ World.init).1 =
        some (.Errorf "error clearing loopfile: %v" [.errno EBUSY])
      ∧ (Device.Detach (sampleEnv (.ok 4) (.ok 4) (fun _ => (2 ^ 64 - 1, 0, 1)) none)
        sampleDecls ⟨7, 0⟩ World.init).1 =
        some (.Errorf "error clearing loopfile: %v" [.errno 1])
      ∧ (Device.Detach (sampleEnv (.ok 4) (.ok 4) (fun _ => (2 ^ 64 - 1, 0, EBUSY)) none)
        sampleDecls ⟨7, 0⟩ World.init).1.bind GoError.format =
        (Device.Detach (sampleEnv (.ok 4) (.ok 4) (fun _ => (2 ^ 64 - 1, 0, 1)) none)
        sampleDecls ⟨7, 0⟩ World.init).1.bind GoError.format := by
  refine ⟨rfl, rfl, rfl⟩

/-- C2, the code at the failing input. The control device opens as descriptor 3 and the
get-free request fails: unix.Syscall answers r1 = 2^64 - 1 (the value -1 as a uintptr) with
errno 12 (ENOMEM). GetFree returns a nil error and the Device numbered 2^64 - 1. -/
theorem GetFree_failure_returns_device :
    (GetFree (sampleEnv (.ok 3) (.ok 4) (fun _ => (2 ^ 64 - 1, 0, 12)) none) sampleDecls
        World.init).1 = (⟨2 ^ 64 - 1, O_RDWR⟩, none)
      ∧ (GetFree (sampleEnv (.ok 3) (.ok 4) (fun _ => (2 ^ 64 - 1, 0, 12)) none) sampleDecls
        World.init).2.trace =
          [Event.OpenFile "/dev/loop-control" 2 0o660 (.ok 3),
           Event.Syscall 16 3 0x4C82 0 (2 ^ 64 - 1) 0 12,
           Event.Close 3] := by
  refine ⟨by decide, by decide⟩

/-- Whenever the control device opens, GetFree returns a nil error, whatever the get-free
request answers: the test dev < 0 on an unsigned dev never holds. -/
theorem GetFree_open_ok_no_error (e : Env σ) (c : Decls) (w : World σ) (ctrl : Nat) (s1 : σ)
    (hopen : e.OpenFile c.LoopControlPath O_RDWR 0o660 w.st = (.ok ctrl, s1)) :
    (GetFree e c w).1 =
      (⟨uint64 (e.Syscall SYS_IOCTL ctrl c.CtlGetFree 0 s1).1.1, O_RDWR⟩, none) := by
  simp [GetFree, osOpenFile, deferClose, Syscall, hopen]

/-- C3. If opening the backing file fails, Device.Attach returns the receiver unchanged
together with the error "could not open backing file", and the failed open is the only call it
makes: it does not open the loop device and issues no control request. -/
theorem Attach_backing_open_fails (e : Env σ) (c : Decls) (device : Device)
    (backingFile : String) (offset : Nat) (ro : Bool) (w : World σ) (err : ExtError) (s1 : σ)
    (hback : e.OpenFile backingFile (if ro then O_RDONLY else O_RDWR) 0o660 w.st
      = (.error err, s1)) :
    (Device.Attach e c device backingFile offset ro w).1 =
        (device, some (.Errorf "could not open backing file: %v" [.err err]))
      ∧ (Device.Attach e c device backingFile offset ro w).2.trace = w.trace ++
        [Event.OpenFile backingFile (if ro then O_RDONLY else O_RDWR) 0o660 (.error err)]
      ∧ (Device.Attach e c device backingFile offset ro w).2.st = s1 := by
  simp [Device.Attach, osOpenFile, hback]

/-- Witness of C3: device 7 with Flags 5, the backing file does not open. -/
theorem Attach_backing_open_fails_witness :
    (sampleEnv (.error ⟨"no such file or directory"⟩) (.ok 4) (fun _ => (0, 0, 0)) none).OpenFile
        "/tmp/missing.img" (if true then O_RDONLY else O_RDWR) 0o660 World.init.st
        = (.error ⟨"no such file or directory"⟩, ())
      ∧ (Device.Attach
          (sampleEnv (.error ⟨"no such file or directory"⟩) (.ok 4) (fun _ => (0, 0, 0)) none)
          sampleDecls ⟨7, 5⟩ "/tmp/missing.img" 512 true World.init).1 =
          (⟨7, 5⟩, some (.Errorf "could not open backing file: %v"
            [.err ⟨"no such file or directory"⟩]))
      ∧ (Device.Attach
          (sampleEnv (.error ⟨"no such file or directory"⟩) (.ok 4) (fun _ => (0, 0, 0)) none)
          sampleDecls ⟨7, 5⟩ "/tmp/missing.img" 512 true World.init).2.trace =
          [Event.OpenFile "/tmp/missing.img" 0 0o660 (.error ⟨"no such file or directory"⟩)] :=
  have h := Attach_backing_open_fails
    (sampleEnv (.error ⟨"no such file or directory"⟩) (.ok 4) (fun _ => (0, 0, 0)) none)
    sampleDecls ⟨7, 5⟩ "/tmp/missing.img" 512 true World.init
    ⟨"no such file or directory"⟩ () rfl
  ⟨rfl, h.1, h.2.1⟩

/-- C7. If both opens succeed and the set-file-descriptor request answers a non-zero errno,
Device.Attach returns that errno itself as the error, and the set-file-descriptor request is
the only control request it issues: neither set-info nor clear-file-descriptor follows; the
two descriptors are then closed. -/
theorem Attach_bind_fails (e : Env σ) (c : Decls) (device : Device)
    (backingFile : String) (offset : Nat) (ro : Bool) (w : World σ)
    (back loopFile r1 r2 errno : Nat) (s1 s2 s3 : σ)
    (hback : e.OpenFile backingFile (if ro then O_RDONLY else O_RDWR) 0o660 w.st
      = (.ok back, s1))
    (hloop : e.deviceOpen ⟨device.Number, if ro then O_RDONLY else O_RDWR⟩ s1
      = (.ok loopFile, s2))
    (hsetfd : e.Syscall SYS_IOCTL loopFile c.SetFd back s2 = ((r1, r2, errno), s3))
    (herrno : errno ≠ 0) :
    (Device.Attach e c device backingFile offset ro w).1.2 = some (.Errno errno)
      ∧ (Device.Attach e c device backingFile offset ro w).2.trace = w.trace ++
        [Event.OpenFile backingFile (if ro then O_RDONLY else O_RDWR) 0o660 (.ok back),
         Event.deviceOpen ⟨device.Number, if ro then O_RDONLY else O_RDWR⟩ (.ok loopFile),
         Event.Syscall SYS_IOCTL loopFile c.SetFd back r1 r2 errno,
         Event.Close loopFile,
         Event.Close back] := by
  simp [Device.Attach, osOpenFile, deviceOpen, deferClose, fileClose, Syscall, hback, hloop,
    hsetfd, herrno]

/-- Witness of C7: device 7, descriptors 3 and 4, the set-file-descriptor request answers
EBUSY. -/
theorem Attach_bind_fails_witness :
    (sampleEnv (.ok 3) (.ok 4) (fun _ => (2 ^ 64 - 1, 0, EBUSY)) none).OpenFile
        "/tmp/disk.img" (if false then O_RDONLY else O_RDWR) 0o660 World.init.st = (.ok 3, ())
      ∧ (sampleEnv (.ok 3) (.ok 4) (fun _ => (2 ^ 64 - 1, 0, EBUSY)) none).deviceOpen
        ⟨7, if false then O_RDONLY else O_RDWR⟩ () = (.ok 4, ())
      ∧ (sampleEnv (.ok 3) (.ok 4) (fun _ => (2 ^ 64 - 1, 0, EBUSY)) none).Syscall
        SYS_IOCTL 4 sampleDecls.SetFd 3 () = ((2 ^ 64 - 1, 0, EBUSY), ())
      ∧ EBUSY ≠ 0
      ∧ (Device.Attach (sampleEnv (.ok 3) (.ok 4) (fun _ => (2 ^ 64 - 1, 0, EBUSY)) none)
          sampleDecls ⟨7, 0⟩ "/tmp/disk.img" 512 false World.init).1.2 = some (.Errno 16)
      ∧ (Device.Attach (sampleEnv (.ok 3) (.ok 4) (fun _ => (2 ^ 64 - 1, 0, EBUSY)) none)
          sampleDecls ⟨7, 0⟩ "/tmp/disk.img" 512 false World.init).2.trace =
          [Event.OpenFile "/tmp/disk.img" 2 0o660 (.ok 3),
           Event.deviceOpen ⟨7, 2⟩ (.ok 4),
           Event.Syscall 16 4 0x4C00 3 (2 ^ 64 - 1) 0 16,
           Event.Close 4,
           Event.Close 3] :=
  have h := Attach_bind_fails (sampleEnv (.ok 3) (.ok 4) (fun _ => (2 ^ 64 - 1, 0, EBUSY)) none)
    sampleDecls ⟨7, 0⟩ "/tmp/disk.img" 512 false World.init 3 4 (2 ^ 64 - 1) 0 EBUSY () () ()
    rfl rfl rfl (by decide)
  ⟨rfl, rfl, rfl, by decide, h.1, h.2⟩

/-- C1. If both opens succeed, the set-file-descriptor request answers errno 0 and setInfo
returns an error, Device.Attach returns the error "could not set info", and the control
requests it issues are, in this order, set-file-descriptor, set-info, and
clear-file-descriptor on the same loop device descriptor; the clear request comes right after
the failed set-info and before the two closes that end the call. -/
theorem Attach_rollback (e : Env σ) (c : Decls) (device : Device)
    (backingFile : String) (offset : Nat) (ro : Bool) (w : World σ)
    (back loopFile r1 r2 q1 q2 qerrno : Nat) (ierr : ExtError) (s1 s2 s3 s4 s5 : σ)
    (hback : e.OpenFile backingFile (if ro then O_RDONLY else O_RDWR) 0o660 w.st
      = (.ok back, s1))
    (hloop : e.deviceOpen ⟨device.Number, if ro then O_RDONLY else O_RDWR⟩ s1
      = (.ok loopFile, s2))
    (hsetfd : e.Syscall SYS_IOCTL loopFile c.SetFd back s2 = ((r1, r2, 0), s3))
    (hinfo : e.setInfo loopFile
      ⟨copy (List.replicate c.NameSize 0) (bytes backingFile), offset⟩ s3 = (some ierr, s4))
    (hclr : e.Syscall SYS_IOCTL loopFile c.ClrFd 0 s4 = ((q1, q2, qerrno), s5)) :
    (Device.Attach e c device backingFile offset ro w).1.2 =
        some (.Errorf "could not set info" [])
      ∧ (Device.Attach e c device backingFile offset ro w).2.trace = w.trace ++
        [Event.OpenFile backingFile (if ro then O_RDONLY else O_RDWR) 0o660 (.ok back),
         Event.deviceOpen ⟨device.Number, if ro then O_RDONLY else O_RDWR⟩ (.ok loopFile),
         Event.Syscall SYS_IOCTL loopFile c.SetFd back r1 r2 0,
         Event.setInfo loopFile
           ⟨copy (List.replicate c.NameSize 0) (bytes backingFile), offset⟩ (some ierr),
         Event.Syscall SYS_IOCTL loopFile c.ClrFd 0 q1 q2 qerrno,
         Event.Close loopFile,
         Event.Close back] := by
  simp [Device.Attach, osOpenFile, deviceOpen, deferClose, fileClose, Syscall, setInfo,
    Info.zero, hback, hloop, hsetfd, hinfo, hclr]

/-- Witness of C1: device 7, descriptors 3 and 4, every system call answers errno 0 and
setInfo returns an error. -/
theorem Attach_rollback_witness :
    (sampleEnv (.ok 3) (.ok 4) (fun _ => (0, 0, 0)) (some ⟨"device not backed by a file"⟩)).OpenFile
        "/tmp/disk.img" (if false then O_RDONLY else O_RDWR) 0o660 World.init.st = (.ok 3, ())
      ∧ (sampleEnv (.ok 3) (.ok 4) (fun _ => (0, 0, 0))
          (some ⟨"device not backed by a file"⟩)).deviceOpen
        ⟨7, if false then O_RDONLY else O_RDWR⟩ () = (.ok 4, ())
      ∧ (sampleEnv (.ok 3) (.ok 4) (fun _ => (0, 0, 0))
          (some ⟨"device not backed by a file"⟩)).Syscall
        SYS_IOCTL 4 sampleDecls.SetFd 3 () = ((0, 0, 0), ())
      ∧ (sampleEnv (.ok 3) (.ok 4) (fun _ => (0, 0, 0))
          (some ⟨"device not backed by a file"⟩)).setInfo 4
        ⟨copy (List.replicate sampleDecls.NameSize 0) (bytes "/tmp/disk.img"), 512⟩ ()
        = (some ⟨"device not backed by a file"⟩, ())
      ∧ (Device.Attach (sampleEnv (.ok 3) (.ok 4) (fun _ => (0, 0, 0))
          (some ⟨"device not backed by a file"⟩))
          sampleDecls ⟨7, 0⟩ "/tmp/disk.img" 512 false World.init).1.2 =
          some (.Errorf "could not set info" [])
      ∧ (Device.Attach (sampleEnv (.ok 3) (.ok 4) (fun _ => (0, 0, 0))
          (some ⟨"device not backed by a file"⟩))
          sampleDecls ⟨7, 0⟩ "/tmp/disk.img" 512 false World.init).2.trace =
          [Event.OpenFile "/tmp/disk.img" 2 0o660 (.ok 3),
           Event.deviceOpen ⟨7, 2⟩ (.ok 4),
           Event.Syscall 16 4 0x4C00 3 0 0 0,
           Event.setInfo 4
             ⟨[47, 116, 109, 112, 47, 100, 105, 115, 107, 46, 105, 109, 103]
                ++ List.replicate 51 0, 512⟩
             (some ⟨"device not backed by a file"⟩),
           Event.Syscall 16 4 0x4C01 0 0 0 0,
           Event.Close 4,
           Event.Close 3] :=
  have h := Attach_rollback
    (sampleEnv (.ok 3) (.ok 4) (fun _ => (0, 0, 0)) (some ⟨"device not backed by a file"⟩))
    sampleDecls ⟨7, 0⟩ "/tmp/disk.img" 512 false World.init 3 4 0 0 0 0 0
    ⟨"device not backed by a file"⟩ () () () () () rfl rfl rfl rfl rfl
  ⟨rfl, rfl, rfl, rfl, h.1, h.2⟩

/-- C10. When Device.Attach returns a nil error, the Device it returns has the Number of the
receiver, and its Flags are O_RDONLY if ro is true and O_RDWR if ro is false, whatever the
Flags of the receiver were. -/
theorem Attach_flags_recorded (e : Env σ) (c : Decls) (device : Device)
    (backingFile : String) (offset : Nat) (ro : Bool) (w : World σ)
    (hok : (Device.Attach e c device backingFile offset ro w).1.2 = none) :
    (Device.Attach e c device backingFile offset ro w).1.1.Number = device.Number
      ∧ (ro = true → (Device.Attach e c device backingFile offset ro w).1.1.Flags = O_RDONLY)
      ∧ (ro = false → (Device.Attach e c device backingFile offset ro w).1.1.Flags = O_RDWR) := by
  revert hok
  cases ro <;>
  · simp only [Device.Attach, osOpenFile, deviceOpen, deferClose, fileClose, Syscall, setInfo,
      Bool.false_eq_true, if_true, if_false]
    repeat' split
    all_goals simp

/-- Witness of C10: a read-only attach on device 7, whose Flags were 5, succeeds. -/
theorem Attach_flags_recorded_witness :
    (Device.Attach (sampleEnv (.ok 3) (.ok 4) (fun _ => (0, 0, 0)) none) sampleDecls ⟨7, 5⟩
        "/tmp/disk.img" 512 true World.init).1.2 = none
      ∧ (Device.Attach (sampleEnv (.ok 3) (.ok 4) (fun _ => (0, 0, 0)) none) sampleDecls ⟨7, 5⟩
        "/tmp/disk.img" 512 true World.init).1.1 = ⟨7, 0⟩
      ∧ (Device.Attach (sampleEnv (.ok 3) (.ok 4) (fun _ => (0, 0, 0)) none) sampleDecls ⟨7, 5⟩
        "/tmp/disk.img" 512 true World.init).1.1.Number = 7
      ∧ (Device.Attach (sampleEnv (.ok 3) (.ok 4) (fun _ => (0, 0, 0)) none) sampleDecls ⟨7, 5⟩
        "/tmp/disk.img" 512 true World.init).1.1.Flags = O_RDONLY :=
  have h := Attach_flags_recorded (sampleEnv (.ok 3) (.ok 4) (fun _ => (0, 0, 0)) none)
    sampleDecls ⟨7, 5⟩ "/tmp/disk.img" 512 true World.init rfl
  ⟨rfl, rfl, h.1, h.2.1 rfl⟩

/-- The builtin copy into a zeroed array that is shorter than the source keeps exactly the
first bytes of the source. -/
theorem copy_replicate_of_lt (n : Nat) (src : List Nat) (h : n < src.length) :
    copy (List.replicate n 0) src = src.take n := by
  simp [copy, Nat.min_eq_left (Nat.le_of_lt h)]

/-- C6. Whatever the two opens and the control requests answer, the calls made by
Device.Attach are a body without any close, followed by the closes of exactly the descriptors
the body opened, each once, in the reverse order of the opens. The body opens nothing if the
backing file fails to open, only the backing file if the loop device fails to open, and
otherwise the backing file then the loop device: the loop device descriptor is closed first,
the backing file descriptor last, and a failed open is followed by no close of its own. -/
theorem Attach_descriptor_release (e : Env σ) (c : Decls) (device : Device)
    (backingFile : String) (offset : Nat) (ro : Bool) (w : World σ) :
    ∃ body : List Event,
      (Device.Attach e c device backingFile offset ro w).2.trace =
          w.trace ++ body ++ (opens body).reverse.map Event.Close
        ∧ closes body = []
        ∧ opens body =
          (match (e.OpenFile backingFile (if ro then O_RDONLY else O_RDWR) 0o660 w.st).1 with
           | .error _ => []
           | .ok back =>
             match (e.deviceOpen ⟨device.Number, if ro then O_RDONLY else O_RDWR⟩
                (e.OpenFile backingFile (if ro then O_RDONLY else O_RDWR) 0o660 w.st).2).1 with
             | .error _ => [back]
             | .ok loopFile => [back, loopFile]) := by
  simp only [Device.Attach, osOpenFile, deviceOpen, deferClose, fileClose, Syscall, setInfo]
  generalize hO : e.OpenFile backingFile (if ro then O_RDONLY else O_RDWR) 0o660 w.st = o
  obtain ⟨_ | err, s1⟩ := o
  swap
  · exact ⟨[Event.OpenFile backingFile (if ro then O_RDONLY else O_RDWR) 0o660 (.error err)],
      by simp [opens], by simp [closes], by simp [opens]⟩
  rename_i back
  simp only []
  generalize hL : e.deviceOpen ⟨device.Number, if ro then O_RDONLY else O_RDWR⟩ s1 = l
  obtain ⟨_ | err, s2⟩ := l
  swap
  · exact ⟨[Event.OpenFile backingFile (if ro then O_RDONLY else O_RDWR) 0o660 (.ok back),
       Event.deviceOpen ⟨device.Number, if ro then O_RDONLY else O_RDWR⟩ (.error err)],
      by simp [opens], by simp [closes], by simp [opens]⟩
  rename_i loopFile
  simp only []
  generalize hS : e.Syscall SYS_IOCTL loopFile c.SetFd back s2 = r
  obtain ⟨⟨r1, r2, errno⟩, s3⟩ := r
  simp only []
  by_cases h0 : errno = 0
  swap
  · exact ⟨[Event.OpenFile backingFile (if ro then O_RDONLY else O_RDWR) 0o660 (.ok back),
       Event.deviceOpen ⟨device.Number, if ro then O_RDONLY else O_RDWR⟩ (.ok loopFile),
       Event.Syscall SYS_IOCTL loopFile c.SetFd back r1 r2 errno],
      by simp [opens, h0], by simp [closes], by simp [opens]⟩
  subst h0
  simp only [if_true]
  generalize hI : e.setInfo loopFile
    ⟨copy (Info.zero c).FileName (bytes backingFile), offset⟩ s3 = i
  obtain ⟨_ | ierr, s4⟩ := i
  · exact ⟨[Event.OpenFile backingFile (if ro then O_RDONLY else O_RDWR) 0o660 (.ok back),
       Event.deviceOpen ⟨device.Number, if ro then O_RDONLY else O_RDWR⟩ (.ok loopFile),
       Event.Syscall SYS_IOCTL loopFile c.SetFd back r1 r2 0,
       Event.setInfo loopFile ⟨copy (Info.zero c).FileName (bytes backingFile), offset⟩ none],
      by simp [opens], by simp [closes], by simp [opens]⟩
  · exact ⟨[Event.OpenFile backingFile (if ro then O_RDONLY else O_RDWR) 0o660 (.ok back),
       Event.deviceOpen ⟨device.Number, if ro then O_RDONLY else O_RDWR⟩ (.ok loopFile),
       Event.Syscall SYS_IOCTL loopFile c.SetFd back r1 r2 0,
       Event.setInfo loopFile ⟨copy (Info.zero c).FileName (bytes backingFile), offset⟩
         (some ierr),
       Event.Syscall SYS_IOCTL loopFile c.ClrFd 0
         (e.Syscall SYS_IOCTL loopFile c.ClrFd 0 s4).1.1
         (e.Syscall SYS_IOCTL loopFile c.ClrFd 0 s4).1.2.1
         (e.Syscall SYS_IOCTL loopFile c.ClrFd 0 s4).1.2.2],
      by simp [opens], by simp [closes], by simp [opens]⟩

/-- The five outcomes of Device.Attach on sample environments, reduced to the descriptors
opened and the descriptors closed: backing open fails; loop open fails; set-fd fails;
set-info fails; full success. -/
theorem Attach_descriptor_release_outcomes :
    closes (Device.Attach (sampleEnv (.error ⟨"enoent"⟩) (.ok 4) (fun _ => (0, 0, 0)) none)
        sampleDecls ⟨7, 0⟩ "/tmp/disk.img" 0 false World.init).2.trace = []
      ∧ closes (Device.Attach (sampleEnv (.ok 3) (.error ⟨"eacces"⟩) (fun _ => (0, 0, 0)) none)
        sampleDecls ⟨7, 0⟩ "/tmp/disk.img" 0 false World.init).2.trace = [3]
      ∧ closes (Device.Attach (sampleEnv (.ok 3) (.ok 4) (fun _ => (2 ^ 64 - 1, 0, EBUSY)) none)
        sampleDecls ⟨7, 0⟩ "/tmp/disk.img" 0 false World.init).2.trace = [4, 3]
      ∧ closes (Device.Attach (sampleEnv (.ok 3) (.ok 4) (fun _ => (0, 0, 0)) (some ⟨"einval"⟩))
        sampleDecls ⟨7, 0⟩ "/tmp/disk.img" 0 false World.init).2.trace = [4, 3]
      ∧ closes (Device.Attach (sampleEnv (.ok 3) (.ok 4) (fun _ => (0, 0, 0)) none)
        sampleDecls ⟨7, 0⟩ "/tmp/disk.img" 0 false World.init).2.trace = [4, 3]
      ∧ opens (Device.Attach (sampleEnv (.ok 3) (.error ⟨"eacces"⟩) (fun _ => (0, 0, 0)) none)
        sampleDecls ⟨7, 0⟩ "/tmp/disk.img" 0 false World.init).2.trace = [3]
      ∧ opens (Device.Attach (sampleEnv (.ok 3) (.ok 4) (fun _ => (0, 0, 0)) none)
        sampleDecls ⟨7, 0⟩ "/tmp/disk.img" 0 false World.init).2.trace = [3, 4] := by
  refine ⟨by decide, by decide, by decide, by decide, by decide, by decide, by decide⟩

/-- C4, as the code has it. For a backing file path with more bytes than Info.FileName
holds, Device.Attach makes no length check: if both opens succeed and the
set-file-descriptor request answers errno 0, it calls setInfo with FileName holding exactly
the first NameSize bytes of the path, and if setInfo then returns nil, Device.Attach returns
a nil error. -/
theorem Attach_long_path_truncated (e : Env σ) (c : Decls) (device : Device)
    (backingFile : String) (offset : Nat) (ro : Bool) (w : World σ)
    (back loopFile r1 r2 : Nat) (s1 s2 s3 s4 : σ)
    (hlong : c.NameSize < (bytes backingFile).length)
    (hback : e.OpenFile backingFile (if ro then O_RDONLY else O_RDWR) 0o660 w.st
      = (.ok back, s1))
    (hloop : e.deviceOpen ⟨device.Number, if ro then O_RDONLY else O_RDWR⟩ s1
      = (.ok loopFile, s2))
    (hsetfd : e.Syscall SYS_IOCTL loopFile c.SetFd back s2 = ((r1, r2, 0), s3))
    (hinfo : e.setInfo loopFile ⟨(bytes backingFile).take c.NameSize, offset⟩ s3
      = (none, s4)) :
    (Device.Attach e c device backingFile offset ro w).1.2 = none
      ∧ (Device.Attach e c device backingFile offset ro w).2.trace = w.trace ++
        [Event.OpenFile backingFile (if ro then O_RDONLY else O_RDWR) 0o660 (.ok back),
         Event.deviceOpen ⟨device.Number, if ro then O_RDONLY else O_RDWR⟩ (.ok loopFile),
         Event.Syscall SYS_IOCTL loopFile c.SetFd back r1 r2 0,
         Event.setInfo loopFile ⟨(bytes backingFile).take c.NameSize, offset⟩ none,
         Event.Close loopFile,
         Event.Close back] := by
  have hcopy := copy_replicate_of_lt c.NameSize (bytes backingFile) hlong
  simp [Device.Attach, osOpenFile, deviceOpen, deferClose, fileClose, Syscall, setInfo,
    Info.zero, hcopy, hback, hloop, hsetfd, hinfo]

/-- Witness of C4: a read-only attach of the 70-byte path on device 7, every call succeeds. -/
theorem Attach_long_path_truncated_witness :
    sampleDecls.NameSize < (bytes longPath).length
      ∧ (sampleEnv (.ok 3) (.ok 4) (fun _ => (0, 0, 0)) none).OpenFile
        longPath (if true then O_RDONLY else O_RDWR) 0o660 World.init.st = (.ok 3, ())
      ∧ (sampleEnv (.ok 3) (.ok 4) (fun _ => (0, 0, 0)) none).deviceOpen
        ⟨7, if true then O_RDONLY else O_RDWR⟩ () = (.ok 4, ())
      ∧ (sampleEnv (.ok 3) (.ok 4) (fun _ => (0, 0, 0)) none).Syscall
        SYS_IOCTL 4 sampleDecls.SetFd 3 () = ((0, 0, 0), ())
      ∧ (sampleEnv (.ok 3) (.ok 4) (fun _ => (0, 0, 0)) none).setInfo 4
        ⟨(bytes longPath).take sampleDecls.NameSize, 4096⟩ () = (none, ())
      ∧ (Device.Attach (sampleEnv (.ok 3) (.ok 4) (fun _ => (0, 0, 0)) none) sampleDecls
          ⟨7, 0⟩ longPath 4096 true World.init).1.2 = none
      ∧ (Device.Attach (sampleEnv (.ok 3) (.ok 4) (fun _ => (0, 0, 0)) none) sampleDecls
          ⟨7, 0⟩ longPath 4096 true World.init).2.trace =
          [Event.OpenFile longPath 0 0o660 (.ok 3),
           Event.deviceOpen ⟨7, 0⟩ (.ok 4),
           Event.Syscall 16 4 0x4C00 3 0 0 0,
           Event.setInfo 4 ⟨(bytes longPath).take 64, 4096⟩ none,
           Event.Close 4,
           Event.Close 3] :=
  have h := Attach_long_path_truncated (sampleEnv (.ok 3) (.ok 4) (fun _ => (0, 0, 0)) none)
    sampleDecls ⟨7, 0⟩ longPath 4096 true World.init 3 4 0 0 () () () ()
    (by decide) rfl rfl rfl rfl
  ⟨by decide, rfl, rfl, rfl, rfl, h.1, h.2⟩

/-- C4, counterexample. The path longPath has 70 bytes and Info.FileName holds 64. With both
opens and both control requests succeeding, Device.Attach on device 7 returns a nil error,
not a PathTooLong error, and the setInfo call it makes carries the first 64 bytes of the
path, the bytes of the path cut after "snapshot-". -/
theorem Attach_long_path_not_rejected :
    (bytes longPath).length = 70
      ∧ sampleDecls.NameSize = 64
      ∧ (Device.Attach (sampleEnv (.ok 3) (.ok 4) (fun _ => (0, 0, 0)) none) sampleDecls
          ⟨7, 0⟩ longPath 0 false World.init).1 = (⟨7, O_RDWR⟩, none)
      ∧ (Device.Attach (sampleEnv (.ok 3) (.ok 4) (fun _ => (0, 0, 0)) none) sampleDecls
          ⟨7, 0⟩ longPath 0 false World.init).2.trace =
          [Event.OpenFile longPath 2 0o660 (.ok 3),
           Event.deviceOpen ⟨7, 2⟩ (.ok 4),
           Event.Syscall 16 4 0x4C00 3 0 0 0,
           Event.setInfo 4
             ⟨bytes "/var/lib/images/backups/2024/customer-data-volume-0001/snapshot-", 0⟩
             none,
           Event.Close 4,
           Event.Close 3] := by
  refine ⟨by decide, rfl, by decide, by decide⟩

end Losetup
